import Mathlib

/-!
Verification of the result-decoding engine of mysql-connector-cpp
(files `src/common/result.h` and `src/connector/result.cc`).

The development shallowly embeds the data model and the operations of the
result engine:

* column wire-type tags and per-type encoding-format descriptors
  (`Format_descr`, `Format_info`, built as in the `Meta_data` constructor);
* raw-bytes-to-value conversion (`convert`, the overload family of
  `result.h:529-547`);
* typed rows (`Row_impl` with `get`, `get_bytes`, `convert_at`);
* column meta-data storage (`Column_info.store_info`);
* the result lifecycle state (`Result_state` with `get_affected_rows`,
  `load_cache`, `store`, `count`);
* the connector-layer result implementation of `result.cc`
  (`Old_impl` with `init_impl`, `getString`, the destructor release trace).

Bytes are modelled as `Nat` (the embedding only moves bytes around, never
does byte arithmetic), byte buffers as `List Nat`, and the `std::map`s keyed
by column position as association lists with `std::map::at` / `emplace`
semantics (`alookup` / `aemplace`).  Fallible operations (C++ `throw`)
return `Except`.

Definitions marked `Modelled from the spec:` embed code of this repository
whose source file is not under `src/` (the bodies in `common/result.cc`:
the codec-based `convert` overloads, `Result_impl_base`'s constructor and
`load_cache`); they follow the specification's wording for those parts.
-/

namespace Mysqlx

/-- CDK column wire-type tags (`cdk::Type_info`).  The eight enumerators of
`CDK_TYPE_LIST` plus a catch-all for unrecognized server type codes, which
the `Meta_data` constructor routes to its `default:` branch
(`result.h:475-477`). -/
inductive TypeTag where
  | STRING
  | INTEGER
  | FLOAT
  | DOCUMENT
  | BYTES
  | DATETIME
  | GEOMETRY
  | XML
  | UNKNOWN (code : Nat)
  deriving DecidableEq, Repr

/-- External `cdk::Format_info` parameters that the embedding tracks: the pad
width reported by the bytes format (`cdk::Format<TYPE_BYTES>::pad_width()`). -/
structure Cdk_format_info where
  padWidth : Nat
  deriving DecidableEq, Repr

/-- The shape of `Format_descr<T>` for each CDK type `T` (`result.h:125-202`):
string/integer/float/document carry a codec; bytes carries only the bytes
format (with its pad width); datetime carries only a format; geometry and xml
carry nothing.  One Lean constructor per C++ specialization. -/
inductive Format_descr where
  | string
  | integer
  | float
  | document
  | bytes (padWidth : Nat)
  | datetime
  | geometry
  | xml
  deriving DecidableEq, Repr

/-- `Format_info` (`result.h:213-251`): the column type tag `m_type` plus the
variant `m_fmt` holding the `Format_descr<T>` value. -/
structure Format_info where
  m_type : TypeTag
  m_fmt : Format_descr
  deriving DecidableEq, Repr

/-- The `Format_info` stored for a column of reported type `t`, as built by
the `Meta_data` constructor switch (`result.h:466-478`): recognized tags with
their own `add<T>` case get the matching descriptor; `TYPE_BYTES` and
unrecognized tags go through the `default:` branch / `add_raw`, which stores
a `Format_descr<cdk::TYPE_BYTES>` built from the format info. -/
def formatInfoFor (t : TypeTag) (fi : Cdk_format_info) : Format_info :=
  match t with
  | .STRING => ⟨.STRING, .string⟩
  | .INTEGER => ⟨.INTEGER, .integer⟩
  | .FLOAT => ⟨.FLOAT, .float⟩
  | .DOCUMENT => ⟨.DOCUMENT, .document⟩
  | .BYTES => ⟨.BYTES, .bytes fi.padWidth⟩
  | .DATETIME => ⟨.DATETIME, .datetime⟩
  | .GEOMETRY => ⟨.GEOMETRY, .geometry⟩
  | .XML => ⟨.XML, .xml⟩
  | .UNKNOWN c => ⟨.UNKNOWN c, .bytes fi.padWidth⟩

/-- Converted column values (`common::Value` as observed through the result
engine): `vnull` is the NULL value (`Value()`), `raw` holds raw bytes
(`Value{ptr, len}`), `decoded t payload` stands for the native value produced
by the codec of type `t` from the sentinel-stripped payload (the codecs
themselves live outside this slice, so the decoded value is kept abstract as
the payload it was decoded from). -/
inductive Value where
  | vnull
  | raw (data : List Nat)
  | decoded (tag : TypeTag) (payload : List Nat)
  deriving DecidableEq, Repr

/-- `convert` overload family (`result.h:529-547` and `common/result.cc`).
The generic template (`result.h:539-547`) covers every `Format_descr<T>`
shape without its own overload - bytes, datetime, geometry, xml - and
returns a raw value of the first `size - 1` input bytes
(`Value{data.begin(), data.size()-1}`: the trailing sentinel byte is
dropped, no decoding happens).

Modelled from the spec: the string/integer/float/document overloads are in
`common/result.cc`, which is not under `src/`; per spec section 4.3 they decode
the sentinel-stripped payload with the type codec, which the model keeps
abstract as `Value.decoded`. -/
def convert (fd : Format_descr) (data : List Nat) : Value :=
  match fd with
  | .string => Value.decoded .STRING data.dropLast
  | .integer => Value.decoded .INTEGER data.dropLast
  | .float => Value.decoded .FLOAT data.dropLast
  | .document => Value.decoded .DOCUMENT data.dropLast
  | .bytes _ => Value.raw (data.take (data.length - 1))
  | .datetime => Value.raw (data.take (data.length - 1))
  | .geometry => Value.raw (data.take (data.length - 1))
  | .xml => Value.raw (data.take (data.length - 1))

/-- The wire types whose `Format_descr` shape carries no value codec, so that
conversion falls to the generic raw-bytes template: bytes, datetime,
geometry, xml, and any unrecognized tag (stored with a bytes descriptor by
`add_raw`). -/
def no_codec (t : TypeTag) : Bool :=
  match t with
  | .BYTES => true
  | .DATETIME => true
  | .GEOMETRY => true
  | .XML => true
  | .UNKNOWN _ => true
  | _ => false

/-- C1: for every column whose wire type has no value codec (bytes, datetime,
geometry, xml, or an unrecognized tag), converting a non-empty raw field
buffer through the column's stored format descriptor yields a raw-bytes value
holding the input minus its trailing sentinel byte: the result has length
`n - 1` and the input is that content followed by one more byte. -/
theorem convert_no_codec_strips_sentinel
    (t : TypeTag) (fi : Cdk_format_info) (data : List Nat)
    (hnc : no_codec t = true) (hlen : 1 ≤ data.length) :
    convert (formatInfoFor t fi).m_fmt data = Value.raw data.dropLast
    ∧ data.dropLast.length = data.length - 1
    ∧ ∃ b, data = data.dropLast ++ [b] := by
  have hne : data ≠ [] := by
    intro h
    rw [h] at hlen
    exact absurd hlen (by decide)
  have htake : data.take (data.length - 1) = data.dropLast := by
    rw [List.dropLast_eq_take]
  refine ⟨?_, ?_, ?_⟩
  · cases t <;> simp [no_codec] at hnc <;> simp [formatInfoFor, convert, htake]
  · exact List.length_dropLast data
  · exact ⟨data.getLast hne, (List.dropLast_append_getLast hne).symm⟩

/-- Witness for C1 at a concrete input: a DATETIME column and buffer
`[10, 20, 0]`. -/
theorem convert_no_codec_strips_sentinel_witness :
    no_codec TypeTag.DATETIME = true ∧ 1 ≤ [10, 20, 0].length
    ∧ (convert (formatInfoFor TypeTag.DATETIME ⟨0⟩).m_fmt [10, 20, 0]
        = Value.raw [10, 20, 0].dropLast
      ∧ [10, 20, 0].dropLast.length = [10, 20, 0].length - 1
      ∧ ∃ b, [10, 20, 0] = [10, 20, 0].dropLast ++ [b]) :=
  ⟨rfl, by decide,
    convert_no_codec_strips_sentinel TypeTag.DATETIME ⟨0⟩ [10, 20, 0] rfl (by decide)⟩

/-!
Association lists with `std::map` access semantics: `alookup` is `find`
(`at` without the throw, which call sites handle), `aemplace` is `emplace`
(no effect when the key is already present).
-/

/-- Lookup by key, as `std::map::find` / the success path of `at`. -/
def alookup {α : Type} : List (Nat × α) → Nat → Option α
  | [], _ => none
  | (k, v) :: rest, p => if k = p then some v else alookup rest p

/-- `std::map::emplace`: no effect when the key is present, otherwise the
entry is added. -/
def aemplace {α : Type} (m : List (Nat × α)) (k : Nat) (v : α) : List (Nat × α) :=
  match alookup m k with
  | some _ => m
  | none => m ++ [(k, v)]

theorem alookup_append {α : Type} (m m' : List (Nat × α)) (p : Nat) :
    alookup (m ++ m') p =
      (match alookup m p with | some v => some v | none => alookup m' p) := by
  induction m with
  | nil => simp [alookup]
  | cons hd tl ih =>
    obtain ⟨k, v⟩ := hd
    by_cases hk : k = p <;> simp [alookup, hk, ih]

theorem alookup_aemplace_self {α : Type} (m : List (Nat × α)) (k : Nat) (v : α) :
    alookup (aemplace m k v) k = some (((alookup m k).getD v)) := by
  unfold aemplace
  cases h : alookup m k with
  | some w => simp [h]
  | none => simp [alookup_append, h, alookup]

/-- Raw row data: the map from column position to the raw byte buffer of
each non-NULL field (`Row_data`, `result.h:521`). -/
abbrev Row_data := List (Nat × List Nat)

/-- Row meta-data as seen by a row: the per-position `Format_info` entries of
the shared `Meta_data` catalog, contiguous on `[0, count)` (so a plain
list position-indexed).  `col_count` is the list length and `get_format pos`
is the entry at `pos`. -/
abbrev Meta_data_fmt := List Format_info

/-- Errors thrown by row access: C++ `std::out_of_range` ("row column" from
the bounds check, or an uncaught `map::at` miss). -/
inductive RowErr where
  | outOfRange
  deriving DecidableEq, Repr

/-- `Row_impl` (`result.h:609-727`): the copied raw row data `m_data`, the
shared meta-data `m_mdata` (absent for user-built rows), the memoization map
`m_vals` of already-converted values, and `m_col_count` (tracked for
user-built rows). -/
structure Row_impl where
  m_data : Row_data
  m_mdata : Option Meta_data_fmt
  m_vals : List (Nat × Value)
  m_col_count : Nat
  deriving DecidableEq, Repr

/-- `Row_impl::convert_at` (`result.h:692-725`): a missing or empty buffer
becomes the NULL value; otherwise the `CDK_TYPE_LIST(CONVERT)` switch
dispatches on `fi.m_type`, each recognized case extracting the stored
`Format_descr` from the variant and applying the matching `convert`
overload.  The switch has no `default:`, so for an unrecognized tag no case
matches and no value is emplaced (the state is returned unchanged). -/
def convert_at (r : Row_impl) (pos : Nat) (fi : Format_info) : Row_impl :=
  match alookup r.m_data pos with
  | none => { r with m_vals := aemplace r.m_vals pos Value.vnull }
  | some raw =>
    if raw.length = 0 then
      { r with m_vals := aemplace r.m_vals pos Value.vnull }
    else
      match fi.m_type with
      | .UNKNOWN _ => r
      | _ => { r with m_vals := aemplace r.m_vals pos (convert fi.m_fmt raw) }

/-- `Row_impl::get` (`result.h:665-681`): bounds check against the meta-data
column count (only when meta-data is present), then return the memoized
value if `m_vals` has one; on a miss, rethrow when there is no meta-data,
otherwise run `convert_at` on the column's format and return the entry it
emplaced (`m_vals.at(pos)` throws `std::out_of_range` if `convert_at`
emplaced nothing).  The updated row is returned alongside the value. -/
def Row_impl.get (r : Row_impl) (pos : Nat) : Except RowErr (Value × Row_impl) :=
  match r.m_mdata with
  | some md =>
    if md.length ≤ pos then .error .outOfRange
    else
      match alookup r.m_vals pos with
      | some v => .ok (v, r)
      | none =>
        match md.get? pos with
        | some fi =>
          match alookup (convert_at r pos fi).m_vals pos with
          | some v => .ok (v, convert_at r pos fi)
          | none => .error .outOfRange
        | none => .error .outOfRange
  | none =>
    match alookup r.m_vals pos with
    | some v => .ok (v, r)
    | none => .error .outOfRange

/-- `Row_impl::get_bytes` (`result.h:645-658`): bounds check against the
meta-data column count (only when meta-data is present); then `m_data.at`,
with the `out_of_range` of a missing entry caught and turned into empty
bytes ("empty bytes indicate null value"). -/
def Row_impl.get_bytes (r : Row_impl) (pos : Nat) : Except RowErr (List Nat) :=
  match r.m_mdata with
  | some md =>
    if md.length ≤ pos then .error .outOfRange
    else
      match alookup r.m_data pos with
      | some b => .ok b
      | none => .ok []
  | none =>
    match alookup r.m_data pos with
    | some b => .ok b
    | none => .ok []

theorem convert_at_mdata (r : Row_impl) (pos : Nat) (fi : Format_info) :
    (convert_at r pos fi).m_mdata = r.m_mdata := by
  unfold convert_at
  cases alookup r.m_data pos with
  | none => rfl
  | some raw =>
    by_cases h : raw.length = 0
    · simp [h]
    · simp only [h, if_false]
      cases fi.m_type <;> rfl

theorem alookup_mem {α : Type} (m : List (Nat × α)) (p : Nat) (v : α)
    (h : alookup m p = some v) : (p, v) ∈ m := by
  induction m with
  | nil => simp [alookup] at h
  | cons hd tl ih =>
    obtain ⟨k, w⟩ := hd
    by_cases hk : k = p
    · subst hk
      simp [alookup] at h
      subst h
      exact List.mem_cons_self _ _
    · simp [alookup, hk] at h
      exact List.mem_cons_of_mem _ (ih h)

/-- C8: decoding a column of a typed row is idempotent and memoized.  If
`Row_impl::get` succeeds, the returned value sits in the `m_vals`
memoization map of the resulting row state, and calling `get` again at the
same position returns the very same value and leaves the row state unchanged
(the memo hit returns before `convert_at` can run again). -/
theorem row_get_memoized (r : Row_impl) (pos : Nat) (v : Value) (r' : Row_impl)
    (h : r.get pos = .ok (v, r')) :
    alookup r'.m_vals pos = some v ∧ r'.get pos = .ok (v, r') := by
  unfold Row_impl.get at h
  cases hm : r.m_mdata with
  | none =>
    simp only [hm] at h
    cases hv : alookup r.m_vals pos with
    | none => rw [hv] at h; exact absurd h (by simp)
    | some w =>
      rw [hv] at h
      injection h with h1
      injection h1 with hveq hreq
      subst hveq
      subst hreq
      refine ⟨hv, ?_⟩
      unfold Row_impl.get
      simp only [hm]
      rw [hv]
  | some md =>
    simp only [hm] at h
    by_cases hb : md.length ≤ pos
    · rw [if_pos hb] at h; exact absurd h (by simp)
    · rw [if_neg hb] at h
      cases hv : alookup r.m_vals pos with
      | some w =>
        rw [hv] at h
        injection h with h1
        injection h1 with hveq hreq
        subst hveq
        subst hreq
        refine ⟨hv, ?_⟩
        unfold Row_impl.get
        simp only [hm]
        rw [if_neg hb, hv]
      | none =>
        simp only [hv] at h
        cases hf : md.get? pos with
        | none => simp only [hf] at h; exact absurd h (by simp)
        | some fi =>
          simp only [hf] at h
          cases hv2 : alookup (convert_at r pos fi).m_vals pos with
          | none => simp only [hv2] at h; exact absurd h (by simp)
          | some w =>
            simp only [hv2] at h
            injection h with h1
            injection h1 with hveq hreq
            subst hveq
            subst hreq
            refine ⟨hv2, ?_⟩
            unfold Row_impl.get
            rw [convert_at_mdata]
            simp only [hm]
            rw [if_neg hb, hv2]

/-- A one-column STRING row as received from the server: field 0 holds one
payload byte 65 plus the trailing sentinel byte. -/
def row8 : Row_impl :=
  ⟨[(0, [65, 0])], some [formatInfoFor TypeTag.STRING ⟨0⟩], [], 0⟩

/-- `row8` after its column 0 has been decoded and memoized. -/
def row8m : Row_impl :=
  { row8 with m_vals := [(0, Value.decoded TypeTag.STRING [65])] }

/-- Witness for C8 at a concrete input: decoding column 0 of `row8`
memoizes the value, and a repeated `get` returns it unchanged. -/
theorem row_get_memoized_witness :
    Row_impl.get row8 0 = .ok (Value.decoded TypeTag.STRING [65], row8m)
    ∧ (alookup row8m.m_vals 0 = some (Value.decoded TypeTag.STRING [65])
      ∧ Row_impl.get row8m 0 = .ok (Value.decoded TypeTag.STRING [65], row8m)) :=
  ⟨rfl, row_get_memoized row8 0 (Value.decoded TypeTag.STRING [65]) row8m rfl⟩

/-- A one-column row whose column has an unrecognized wire type (server type
code 99, stored through `add_raw`), with a present field holding only the
sentinel byte. -/
def row_u : Row_impl :=
  ⟨[(0, [0])], some [formatInfoFor (TypeTag.UNKNOWN 99) ⟨0⟩], [], 0⟩

/-- The same row shape with a recognized BYTES column instead. -/
def row_b : Row_impl :=
  ⟨[(0, [0])], some [formatInfoFor TypeTag.BYTES ⟨0⟩], [], 0⟩

/-- C2: evaluation at the failing input.  For a present field of an
unrecognized wire type, the `CDK_TYPE_LIST(CONVERT)` switch of `convert_at`
matches no case, nothing is emplaced, and `Row_impl::get` ends in
`m_vals.at(pos)` throwing `std::out_of_range` - instead of the non-NULL
empty value the claim (and spec section 4.3) promises for every wire type.  The
same field under the recognized BYTES tag decodes to the empty, non-NULL raw
value, as claimed. -/
theorem row_get_unknown_tag_throws :
    Row_impl.get row_u 0 = .error RowErr.outOfRange
    ∧ Row_impl.get row_b 0
        = .ok (Value.raw [], { row_b with m_vals := [(0, Value.raw [])] }) :=
  ⟨rfl, rfl⟩

/-- C10: `get_bytes` at an in-range position absent from the raw row data
returns empty bytes rather than an error; and provided every present field
buffer is non-empty (each non-NULL field still carries its trailing sentinel
byte, spec section 4.3), an empty `get_bytes` result is exactly the encoding of
a NULL field. -/
theorem get_bytes_null_iff_empty (r : Row_impl) (md : Meta_data_fmt) (pos : Nat)
    (hm : r.m_mdata = some md) (hp : pos < md.length) :
    (alookup r.m_data pos = none → r.get_bytes pos = .ok [])
    ∧ ((∀ e ∈ r.m_data, e.2 ≠ []) →
        (r.get_bytes pos = .ok [] ↔ alookup r.m_data pos = none)) := by
  have hb : ¬ md.length ≤ pos := Nat.not_le.mpr hp
  constructor
  · intro habs
    unfold Row_impl.get_bytes
    simp only [hm]
    rw [if_neg hb, habs]
  · intro hsent
    unfold Row_impl.get_bytes
    simp only [hm]
    rw [if_neg hb]
    cases hd : alookup r.m_data pos with
    | none => simp
    | some b =>
      have hbne : b ≠ [] := hsent (pos, b) (alookup_mem _ _ _ hd)
      simp [hbne]

/-- A two-column STRING row with column 0 present (payload byte 65 plus
sentinel) and column 1 NULL (absent). -/
def row10 : Row_impl :=
  ⟨[(0, [65, 0])],
   some [formatInfoFor TypeTag.STRING ⟨0⟩, formatInfoFor TypeTag.STRING ⟨0⟩],
   [], 0⟩

/-- Witness for C10 at a concrete input: the absent column 1 of `row10`
reads as empty bytes, and under the sentinel invariant emptiness
characterizes absence at column 0. -/
theorem get_bytes_null_iff_empty_witness :
    (1 : Nat) < 2
    ∧ Row_impl.get_bytes row10 1 = .ok []
    ∧ (Row_impl.get_bytes row10 0 = .ok [] ↔ alookup row10.m_data 0 = none) :=
  ⟨by decide,
   (get_bytes_null_iff_empty row10
      [formatInfoFor TypeTag.STRING ⟨0⟩, formatInfoFor TypeTag.STRING ⟨0⟩]
      1 rfl (by decide)).1 rfl,
   (get_bytes_null_iff_empty row10
      [formatInfoFor TypeTag.STRING ⟨0⟩, formatInfoFor TypeTag.STRING ⟨0⟩]
      0 rfl (by decide)).2 (by decide)⟩

/-!
Column meta-data storage: `Column_info` and `store_info`
(`result.h:269-344`).
-/

/-- External `cdk::Column_info::table()` data: original / display name of the
owning table and, when present, its schema name. -/
structure Cdk_table_ref where
  orig_name : String
  table_label : String
  schema : Option String
  deriving DecidableEq, Repr

/-- External `cdk::Column_info` data consumed by `store_info`. -/
structure Cdk_column_info where
  orig_name : String
  col_label : String
  table : Option Cdk_table_ref
  collation : Nat
  col_length : Nat
  decimals : Nat
  deriving DecidableEq, Repr

/-- `Column_info` (`result.h:269-344`): a `Format_info` extended with the
textual column identity, length, decimals, collation and the
fixed-width/padded flag (`m_padded`, default `false`). -/
structure Column_info where
  fmt : Format_info
  m_name : String
  m_label : String
  m_table_name : String
  m_table_label : String
  m_schema_name : String
  m_length : Nat
  m_decimals : Nat
  m_collation : Nat
  m_padded : Bool
  deriving DecidableEq, Repr

/-- A fresh `Column_info` for a column of reported type `t` with format info
`fi`, as the `Meta_data` constructor builds it (`add` / `add_raw`,
`result.h:410-435`) before `store_info` fills in the identity fields.
String members default-construct empty; `m_padded` is `false`. -/
def columnFor (t : TypeTag) (fi : Cdk_format_info) : Column_info :=
  { fmt := formatInfoFor t fi
    m_name := "", m_label := "", m_table_name := "", m_table_label := ""
    m_schema_name := "", m_length := 0, m_decimals := 0, m_collation := 0
    m_padded := false }

/-- The pad width read by `get<cdk::TYPE_BYTES>().m_format.pad_width()`.
Accessing the variant with a non-bytes descriptor is a loud programming
error (spec section 4.1); it cannot arise on catalog-built columns, whose BYTES
columns always store a bytes descriptor, and is given the neutral value 0
here. -/
def pad_width_of : Format_descr → Nat
  | .bytes pw => pw
  | _ => 0

/-- `Column_info::store_info` (`result.h:314-342`): copy name, label, table
and schema linkage, collation, length and decimals from the
`cdk::Column_info`; then, only when `m_type` is `TYPE_BYTES` and the bytes
format reports a positive pad width, set `m_padded` and assert
`m_length == pad_width`.  The returned `Bool` is the value of that asserted
condition (`true` whenever the assertion is not reached). -/
def store_info (c : Column_info) (ci : Cdk_column_info) : Column_info × Bool :=
  let c1 : Column_info :=
    { c with
      m_name := ci.orig_name
      m_label := ci.col_label
      m_table_name := match ci.table with
        | some t => t.orig_name
        | none => c.m_table_name
      m_table_label := match ci.table with
        | some t => t.table_label
        | none => c.m_table_label
      m_schema_name := match ci.table with
        | some t => match t.schema with
          | some s => s
          | none => c.m_schema_name
        | none => c.m_schema_name
      m_collation := ci.collation
      m_length := ci.col_length
      m_decimals := ci.decimals }
  if c1.fmt.m_type = TypeTag.BYTES then
    if 0 < pad_width_of c1.fmt.m_fmt then
      ({ c1 with m_padded := true }, decide (c1.m_length = pad_width_of c1.fmt.m_fmt))
    else (c1, true)
  else (c1, true)

/-- C9: building column meta-data marks exactly the BYTES columns with a
positive reported pad width as padded - a BYTES column with positive pad
width gets `m_padded = true`, and under the precondition that the declared
length equals the pad width the internal assertion holds; BYTES columns with
zero pad width, and columns of every other type, are never marked padded. -/
theorem store_info_padded (t : TypeTag) (fi : Cdk_format_info) (ci : Cdk_column_info) :
    (t = TypeTag.BYTES → 0 < fi.padWidth →
      ((store_info (columnFor t fi) ci).1.m_padded = true
        ∧ (ci.col_length = fi.padWidth → (store_info (columnFor t fi) ci).2 = true)))
    ∧ (t = TypeTag.BYTES → fi.padWidth = 0 →
        (store_info (columnFor t fi) ci).1.m_padded = false)
    ∧ (t ≠ TypeTag.BYTES →
        (store_info (columnFor t fi) ci).1.m_padded = false) := by
  refine ⟨?_, ?_, ?_⟩
  · intro ht hpw
    subst ht
    constructor
    · simp [store_info, columnFor, formatInfoFor, pad_width_of, hpw]
    · intro hlen
      simp [store_info, columnFor, formatInfoFor, pad_width_of, hpw, hlen]
  · intro ht hpw
    subst ht
    simp [store_info, columnFor, formatInfoFor, pad_width_of, hpw]
  · intro ht
    cases t <;> simp_all [store_info, columnFor, formatInfoFor, pad_width_of]

/-- Witness for C9 at concrete inputs: a BYTES column with pad width 3 and
declared length 3 is marked padded with the assertion holding, and a STRING
column is not marked padded. -/
theorem store_info_padded_witness :
    ((store_info (columnFor TypeTag.BYTES ⟨3⟩) ⟨"", "", none, 0, 3, 0⟩).1.m_padded = true
      ∧ (⟨"", "", none, 0, 3, 0⟩ : Cdk_column_info).col_length = (⟨3⟩ : Cdk_format_info).padWidth
      ∧ (store_info (columnFor TypeTag.BYTES ⟨3⟩) ⟨"", "", none, 0, 3, 0⟩).2 = true)
    ∧ (store_info (columnFor TypeTag.STRING ⟨0⟩) ⟨"", "", none, 0, 3, 0⟩).1.m_padded = false :=
  ⟨⟨((store_info_padded TypeTag.BYTES ⟨3⟩ ⟨"", "", none, 0, 3, 0⟩).1 rfl (by decide)).1,
    rfl,
    ((store_info_padded TypeTag.BYTES ⟨3⟩ ⟨"", "", none, 0, 3, 0⟩).1 rfl (by decide)).2 rfl⟩,
   (store_info_padded TypeTag.STRING ⟨0⟩ ⟨"", "", none, 0, 3, 0⟩).2.2 (by decide)⟩

/-!
The connector-layer result implementation (`src/connector/result.cc`,
`Result::Impl`): reply preparation (`init`), row access (`get_row`), the
string accessor (`getString`) and the destructor's release order.
-/

/-- The external `cdk::Reply` as `Result::Impl` consumes it: error/diagnostic
entry count, whether it has row results, and - when a cursor is opened on
it - the per-column types and the raw rows the cursor delivers. -/
structure Cdk_reply_old where
  entry_count : Nat
  has_results : Bool
  cols : List TypeTag
  rows : List (Nat × Row_data)
  deriving DecidableEq, Repr

/-- `Result::Impl` state (`result.cc:59-156`): the owned reply, the cursor
(opened only by `init` when the reply is clean and has results; kept after
`close()` for meta-data access, so modelled by the column types it exposes),
and the ingested rows `m_rows`. -/
structure Old_impl where
  m_reply : Option Cdk_reply_old
  m_cursor : Option (List TypeTag)
  m_rows : List (Nat × Row_data)
  deriving DecidableEq, Repr

/-- `Result::Impl::init` (`result.cc:84-103`): nothing happens without a
reply; after `wait()`, a reply with one or more diagnostic entries is left
alone (no cursor, no rows - but the reply is kept); otherwise, if the reply
has results, a cursor is opened and all rows are read into `m_rows`
(`read_rows`, `result.cc:232-238`, via the row-processor callbacks). -/
def init_impl (r : Option Cdk_reply_old) : Old_impl :=
  match r with
  | none => ⟨none, none, []⟩
  | some rep =>
    if 0 < rep.entry_count then ⟨some rep, none, []⟩
    else if rep.has_results then ⟨some rep, some rep.cols, rep.rows⟩
    else ⟨some rep, none, []⟩

/-- `Result::Impl::get_row` (`result.cc:122-130`): `NULL` without a cursor or
past the stored rows, otherwise the `Row` handle positioned at `pos`
(modelled by the selected index). -/
def Old_impl.get_row (impl : Old_impl) (pos : Nat) : Option Nat :=
  match impl.m_cursor with
  | none => none
  | some _ => if impl.m_rows.length ≤ pos then none else some pos

/-- Errors thrown by `getString`: `"empty row"` without a cursor, the
`"pos out of range"` range check, and the uncaught `std::out_of_range` of
`m_rows.at(m_pos)` for an invalid row index. -/
inductive GErr where
  | emptyRow
  | posOutOfRange
  | rowOutOfRange
  deriving DecidableEq, Repr

/-- The body of the string `getString` renders after the type-name prefix:
a quoted ascii string (STRING columns, sentinel stripped), a hex dump of the
stored buffer, or `"<null>"` for a missing field. -/
inductive StrBody where
  | strVal (payload : List Nat)
  | hexVal (data : List Nat)
  | nullVal
  deriving DecidableEq, Repr

/-- `getString`'s rendered output: the column type read from the cursor
(`none` models the switch falling to its `UNKNOWN(...)` default on a type
value read past the cursor's columns) and the rendered body. -/
structure Rendered where
  typeTag : Option TypeTag
  body : StrBody
  deriving DecidableEq, Repr

/-- `Result::Impl::getString` (`result.cc:177-229`): throw `"empty row"`
without a cursor; throw `"pos out of range"` when `pos > col_count()` (note:
strictly greater, so `pos == col_count()` passes the check); then look up row
`m_pos` (`m_rows.at`, outside the try block, so a miss propagates
`out_of_range`); a missing field at `pos` renders `"<null>"`; a STRING field
renders its sentinel-stripped bytes as a string; anything else renders as a
hex dump. -/
def getString (impl : Old_impl) (m_pos pos : Nat) : Except GErr Rendered :=
  match impl.m_cursor with
  | none => .error .emptyRow
  | some cols =>
    if cols.length < pos then .error .posOutOfRange
    else
      match alookup impl.m_rows m_pos with
      | none => .error .rowOutOfRange
      | some rd =>
        match alookup rd pos with
        | none => .ok ⟨cols.get? pos, .nullVal⟩
        | some data =>
          match cols.get? pos with
          | some TypeTag.STRING => .ok ⟨some TypeTag.STRING, .strVal data.dropLast⟩
          | t => .ok ⟨t, .hexVal data⟩

/-- A clean two-column reply with one stored row (both fields present). -/
def rep3 : Cdk_reply_old :=
  ⟨0, true, [TypeTag.STRING, TypeTag.INTEGER],
   [(0, [(0, [65, 0]), (1, [7, 0])])]⟩

/-- C3: evaluation at the failing input.  `getString`'s range check uses
`pos > col_count()` instead of `pos >= col_count()`: on a two-column result,
position 2 - the column count itself, outside the contiguous range
`[0, 2)` - passes the check and the call proceeds (rendering `"<null>"`
from the missing map entry) instead of failing with the out-of-range error;
position 3 is rejected as the claim demands. -/
theorem getString_off_by_one :
    (2 : Nat) = rep3.cols.length
    ∧ getString (init_impl (some rep3)) 0 2 = .ok ⟨none, StrBody.nullVal⟩
    ∧ getString (init_impl (some rep3)) 0 3 = .error GErr.posOutOfRange :=
  ⟨rfl, rfl, rfl⟩

/-- The two transport handles a result owns. -/
inductive Handle where
  | reply
  | cursor
  deriving DecidableEq, Repr

/-- The release order of `Result::Impl::~Impl` (`result.cc:105-109`):
`delete m_reply;` then `delete m_cursor;` - `delete` of a null pointer is a
no-op, so each handle appears in the trace only when live. -/
def impl_dtor_trace (impl : Old_impl) : List Handle :=
  (match impl.m_reply with
    | some _ => [Handle.reply]
    | none => []) ++
  (match impl.m_cursor with
    | some _ => [Handle.cursor]
    | none => [])

/-- Whether a release trace frees the cursor before the reply (vacuously
true when the reply is never freed). -/
def cursor_before_reply (tr : List Handle) : Bool :=
  match tr with
  | [] => true
  | Handle.cursor :: _ => true
  | Handle.reply :: rest => !(rest.contains Handle.cursor)

/-- C6: evaluation at the failing input.  Destroying a result that still
holds both handles (a prepared data-bearing result) releases the reply
first and the cursor second - the opposite of the cursor-then-reply order
the claim requires for every destruction path. -/
theorem impl_dtor_releases_reply_first :
    impl_dtor_trace (init_impl (some rep3)) = [Handle.reply, Handle.cursor]
    ∧ cursor_before_reply (impl_dtor_trace (init_impl (some rep3))) = false :=
  ⟨rfl, rfl⟩

/-- C7: a reply carrying one or more diagnostic error entries is prepared as
data-less: `init` returns with no cursor acquired (hence no meta-data
available) and no rows read, while the reply object itself is kept - the
reply is not aborted, and row access reports "no row" instead of
failing. -/
theorem init_diag_entries_dataless (rep : Cdk_reply_old)
    (h : 0 < rep.entry_count) :
    init_impl (some rep) = ⟨some rep, none, []⟩
    ∧ Old_impl.get_row (init_impl (some rep)) 0 = none := by
  have hst : init_impl (some rep) = ⟨some rep, none, []⟩ := by
    unfold init_impl
    simp only []
    rw [if_pos h]
  exact ⟨hst, by rw [hst]; rfl⟩

/-- Witness for C7 at a concrete input: a reply with one error entry that
would otherwise have a result with one row. -/
theorem init_diag_entries_dataless_witness :
    0 < (⟨1, true, [TypeTag.STRING], [(0, [(0, [65, 0])])]⟩ : Cdk_reply_old).entry_count
    ∧ (init_impl (some ⟨1, true, [TypeTag.STRING], [(0, [(0, [65, 0])])]⟩)
        = ⟨some ⟨1, true, [TypeTag.STRING], [(0, [(0, [65, 0])])]⟩, none, []⟩
      ∧ Old_impl.get_row
          (init_impl (some ⟨1, true, [TypeTag.STRING], [(0, [(0, [65, 0])])]⟩)) 0 = none) :=
  ⟨by decide,
   init_diag_entries_dataless ⟨1, true, [TypeTag.STRING], [(0, [(0, [65, 0])])]⟩ (by decide)⟩

/-!
The result lifecycle (`Result_impl_base`, `result.h:796-1071`): reply-scalar
accessors, the row cache and `load_cache` / `store` / `count`.
-/

/-- The external `cdk::Reply` as `Result_impl_base` consumes it for result
facts: `affected_rows()`, `last_insert_id()` and the warning-severity
`entry_count`. -/
structure Cdk_reply where
  affected_rows : Nat
  last_insert_id : Nat
  warning_entries : Nat
  deriving DecidableEq, Repr

/-- The usage error of the result-fact accessors: the
`"... on empty result"` / `"no result"` conditions thrown when `m_reply` is
null. -/
inductive ResErr where
  | noResult
  deriving DecidableEq, Repr

/-- `Result_impl_base` state: the owned reply pointer `m_reply`, the row
cache (`m_row_cache`, arrival order) with its size counter
(`m_row_cache_size`), the `m_pending_rows` flag, and - standing in for the
external cursor - the rows the transport still has to deliver
(`transport`). -/
structure Result_state where
  m_reply : Option Cdk_reply
  m_row_cache : List Row_data
  m_row_cache_size : Nat
  m_pending_rows : Bool
  transport : List Row_data
  deriving DecidableEq, Repr

/-- `Result_impl_base::get_affected_rows` (`result.h:1021-1027`): throw
`"Attempt to get affected rows count on empty result"` when there is no
reply, otherwise report the reply's count. -/
def get_affected_rows (st : Result_state) : Except ResErr Nat :=
  match st.m_reply with
  | none => .error .noResult
  | some r => .ok r.affected_rows

/-- `Result_impl_base::get_auto_increment` (`result.h:1029-1035`): same
guard, reporting `last_insert_id()`. -/
def get_auto_increment (st : Result_state) : Except ResErr Nat :=
  match st.m_reply with
  | none => .error .noResult
  | some r => .ok r.last_insert_id

/-- `Result_impl_base::get_warning_count` (`result.h:1037-1044`): same
guard, then `load_diagnostics()` (a copy into the diagnostics arena that
does not affect the returned value) and the reply's WARNING entry count. -/
def get_warning_count (st : Result_state) : Except ResErr Nat :=
  match st.m_reply with
  | none => .error .noResult
  | some r => .ok r.warning_entries

/-- Modelled from the spec: the state of a freshly constructed result, before
the first `next_result()` call - "no result prepared" (spec sections 3, 4.6), so no
reply is attached and nothing is cached.  The `Result_impl_base`
constructor's body lives in `common/result.cc`, which is not under
`src/`. -/
def initial_state : Result_state :=
  ⟨none, [], 0, false, []⟩

/-- Modelled from the spec: releasing the reply object (teardown, spec
section 3) - afterwards `m_reply` is null. -/
def release_reply (st : Result_state) : Result_state :=
  { st with m_reply := none }

/-- C4: querying affected rows, the auto-increment id, or the warning count
before any result has been prepared (the fresh, pre-`next_result` state) or
after the reply object has been released fails with the no-result/empty-
result condition instead of returning a value. -/
theorem result_facts_need_reply :
    (get_affected_rows initial_state = .error ResErr.noResult
      ∧ get_auto_increment initial_state = .error ResErr.noResult
      ∧ get_warning_count initial_state = .error ResErr.noResult)
    ∧ ∀ st : Result_state,
        get_affected_rows (release_reply st) = .error ResErr.noResult
        ∧ get_auto_increment (release_reply st) = .error ResErr.noResult
        ∧ get_warning_count (release_reply st) = .error ResErr.noResult :=
  ⟨⟨rfl, rfl, rfl⟩, fun _ => ⟨rfl, rfl, rfl⟩⟩

/-- Modelled from the spec: `Result_impl_base::load_cache(prefetch_size)`
(declared `result.h:957`, body in `common/result.cc`, not under `src/`) -
"If cache is not empty, it returns true right away.  Otherwise it loads rows
into the cache.  If prefetch_size is non-zero then at most that many rows
are loaded.  Returns true if some rows are present in the cache."
(`result.h:949-956`, spec section 4.5).  Loaded rows move from the transport into
the cache in delivery order; `m_row_cache_size` counts the appended rows and
`m_pending_rows` reflects whether the transport still holds rows. -/
def load_cache (st : Result_state) (prefetch_size : Nat) : Result_state × Bool :=
  if st.m_row_cache = [] then
    let avail := st.transport
    let k := if prefetch_size = 0 then avail.length else min prefetch_size avail.length
    let loaded := avail.take k
    let rest := avail.drop k
    ({ st with
        m_row_cache := loaded
        m_row_cache_size := st.m_row_cache_size + loaded.length
        transport := rest
        m_pending_rows := !rest.isEmpty },
      !loaded.isEmpty)
  else (st, true)

/-- `Result_impl_base::store` (`result.h:1060-1064`): an unbounded
`load_cache()`. -/
def store (st : Result_state) : Result_state :=
  (load_cache st 0).1

/-- `Result_impl_base::count` (`result.h:1066-1071`): `store()` then report
`m_row_cache_size`. -/
def count (st : Result_state) : Result_state × Nat :=
  (store st, (store st).m_row_cache_size)

theorem store_store (st : Result_state) : store (store st) = store st := by
  by_cases hc : st.m_row_cache = []
  · by_cases ht : st.transport = []
    · simp [store, load_cache, hc, ht]
    · simp [store, load_cache, hc, ht]
  · simp [store, load_cache, hc]

/-- C5: `count()` is `store()` - the unbounded cache load - followed by
reporting the total number of cached rows; and after one `store()`, two
`count()` calls return the same number and the second call leaves the whole
state (in particular the transport) untouched, so it performs no further
transport fetches. -/
theorem count_is_store_then_size (st : Result_state) :
    count st = (store st, (store st).m_row_cache_size)
    ∧ (count (store st)).2 = (count ((count (store st)).1)).2
    ∧ ((count ((count (store st)).1)).1).transport = ((count (store st)).1).transport
    ∧ (count ((count (store st)).1)).1 = (count (store st)).1 := by
  have h1 : store (store st) = store st := store_store st
  refine ⟨rfl, ?_, ?_, ?_⟩
  · simp [count, h1]
  · simp [count, h1]
  · simp [count, h1]

end Mysqlx
